import Mathlib

/-!
Shallow embedding of the Salesforce MCP integration-management server
(`src/tools/manageIntegrations.ts`, `src/tools/quickSetupIntegration.ts`,
`src/utils/connection.ts`).

Remote effects (jsforce calls) are modelled by an explicit environment
`Env` recording the outcome of each remote call, and an explicit remote
state `SFState` holding the backing schema flag and the stored
`Integration_Config__c` records.  Each tool operation becomes a pure
function from `Env` and `SFState` to a result (`Except`-valued text) and
a successor state.
-/

/-- JS string truthiness for an optional string: `undefined` and `""` are falsy. -/
def strTruthy : Option String → Bool
  | none => false
  | some s => !(s == "")

/-- JS `x || d` for an optional string: falsy (`undefined` or `""`) falls back to `d`. -/
def jsOr (o : Option String) (d : String) : String :=
  match o with
  | none => d
  | some s => if s == "" then d else s

/-- Substring test, mirroring JS `String.prototype.includes`. -/
def containsSubstr (s pat : String) : Bool :=
  decide (pat.data <:+: s.data)

/-- Prefix test on strings via their character lists. -/
def strStartsWith (s pat : String) : Bool :=
  decide (pat.data <+: s.data)

/-- An error response from `handleManageIntegrations`: text starting with
the fixed error prefix. -/
def isErrorResponse (s : String) : Bool :=
  strStartsWith s "Error managing integration:"

-- `export type IntegrationType = 'whatsapp' | 'slack' | 'email' | 'webhook' | 'custom'`
inductive IntegrationType where
  | whatsapp | slack | email | webhook | custom
deriving DecidableEq

def integrationTypeStr : IntegrationType → String
  | .whatsapp => "whatsapp"
  | .slack => "slack"
  | .email => "email"
  | .webhook => "webhook"
  | .custom => "custom"

-- `export type TriggerEvent = 'insert' | 'update' | 'delete'`
inductive TriggerEvent where
  | insert | update | delete
deriving DecidableEq

def triggerEventStr : TriggerEvent → String
  | .insert => "insert"
  | .update => "update"
  | .delete => "delete"

inductive AuthType where
  | none | bearer | api_key | oauth
deriving DecidableEq

def authTypeStr : AuthType → String
  | .none => "none"
  | .bearer => "bearer"
  | .api_key => "api_key"
  | .oauth => "oauth"

/-- The free-form `authConfig` object: keys with possibly-undefined values
(JSON.stringify drops `undefined`-valued keys). -/
def AuthConfig := List (String × Option String)

/-- `JSON.stringify` of an auth-config object. -/
def jsonOfAuth (a : AuthConfig) : String :=
  "\x7b" ++ String.intercalate ","
    (a.filterMap (fun p => p.2.map (fun v => "\"" ++ p.1 ++ "\":\"" ++ v ++ "\"")))
  ++ "\x7d"

/-- `IntegrationConfig` as consumed by the create path (all fields present,
matching the tool input schema's required list; `authConfig` and
`condition` optional). -/
structure IntegrationConfig where
  name : String
  type : IntegrationType
  endpoint : String
  authType : AuthType
  authConfig : Option AuthConfig
  objectName : String
  triggerEvents : List TriggerEvent
  messageTemplate : String
  condition : Option String
  active : Bool

/-- A stored `Integration_Config__c` record. -/
structure IntegrationRecord where
  Id : String
  Name : String
  Type__c : String
  Endpoint__c : String
  Auth_Type__c : String
  Auth_Config__c : String
  Object_Name__c : String
  Trigger_Events__c : String
  Message_Template__c : String
  Condition__c : String
  Active__c : Bool
deriving DecidableEq

/-- Remote platform state: whether `Integration_Config__c` has been
provisioned, and the stored configuration records (in query order). -/
structure SFState where
  schemaExists : Bool
  records : List IntegrationRecord
deriving DecidableEq

/-- Outcome oracle for the remote calls an operation may issue. -/
structure Env where
  schemaCreate : Except String Unit
  recordCreate : Except String String
  triggerCreate : Except String Unit
  triggerUpdate : Except String Unit
  classCreate : Except String Unit
  queryErr : Option String
  updateErr : Option String
  deleteErr : Option String

/-- The record inserted by `createIntegration` (step 2 of the create path). -/
def integrationRecord (id : String) (config : IntegrationConfig) : IntegrationRecord :=
  { Id := id
  , Name := config.name
  , Type__c := integrationTypeStr config.type
  , Endpoint__c := config.endpoint
  , Auth_Type__c := authTypeStr config.authType
  , Auth_Config__c := jsonOfAuth (config.authConfig.getD [])
  , Object_Name__c := config.objectName
  , Trigger_Events__c := String.intercalate "," (config.triggerEvents.map triggerEventStr)
  , Message_Template__c := config.messageTemplate
  , Condition__c := config.condition.getD ""
  , Active__c := config.active }

/-- The four steps of the create path. -/
inductive Step where
  | schema | record | trigger | apexClass
deriving DecidableEq

/-- One line pushed onto `steps` by `createIntegration`, tagged by push site. -/
inductive StepLine where
  | schemaCreated
  | recordCreated (id : String)
  | triggerCreated (triggerName : String)
  | triggerUpdated (triggerName : String)
  | triggerWarning (err : String)
  | classCreated
  | classExists
  | classWarning (err : String)
deriving DecidableEq

/-- The literal text of a step line, exactly as pushed by the source. -/
def renderStep : StepLine → String
  | .schemaCreated => "✅ Created Integration_Config__c custom object"
  | .recordCreated id => "✅ Created integration config record: " ++ id
  | .triggerCreated n => "✅ Created trigger: " ++ n
  | .triggerUpdated n => "✅ Updated existing trigger: " ++ n
  | .triggerWarning e => "⚠️ Warning: Could not create/update trigger: " ++ e
  | .classCreated => "✅ Created utility class: IntegrationCalloutService"
  | .classExists => "✅ Utility class already exists: IntegrationCalloutService"
  | .classWarning e => "⚠️ Warning: Could not create utility class: " ++ e

/-- Which of the four create steps a pushed line belongs to. -/
def stepTag : StepLine → Step
  | .schemaCreated => .schema
  | .recordCreated _ => .record
  | .triggerCreated _ => .trigger
  | .triggerUpdated _ => .trigger
  | .triggerWarning _ => .trigger
  | .classCreated => .apexClass
  | .classExists => .apexClass
  | .classWarning _ => .apexClass

/-- A line that downgrades a step failure to a warning. -/
def isWarningStep : StepLine → Bool
  | .triggerWarning _ => true
  | .classWarning _ => true
  | _ => false

/-- Step 1 of `createIntegration`: `describe` probe and lazy schema
provisioning.  Returns the pushed lines and the successor state, or the
propagated provisioning error. -/
def step1 (env : Env) (st : SFState) : Except String (List StepLine × SFState) :=
  if st.schemaExists then .ok ([], st)
  else
    match env.schemaCreate with
    | .ok _ => .ok ([.schemaCreated], { st with schemaExists := true })
    | .error e => .error e

/-- Step 3 of `createIntegration`: create the trigger, fall back to
updating it, fall back to a warning line. -/
def triggerStepLine (env : Env) (triggerName : String) : StepLine :=
  match env.triggerCreate with
  | .ok _ => .triggerCreated triggerName
  | .error _ =>
    match env.triggerUpdate with
    | .ok _ => .triggerUpdated triggerName
    | .error ue => .triggerWarning (toString ue)

/-- Step 4 of `createIntegration`: create the utility class, treating a
`DUPLICATE_VALUE` failure as success and any other failure as a warning. -/
def classStepLine (env : Env) : StepLine :=
  match env.classCreate with
  | .ok _ => .classCreated
  | .error e =>
    if containsSubstr e "DUPLICATE_VALUE" then .classExists
    else .classWarning e

/-- The body of `createIntegration` up to the response formatting: the
pushed step lines and the successor state, or the propagated error of a
step that is not downgraded (schema provisioning, record insert). -/
def createRun (env : Env) (st : SFState) (config : IntegrationConfig) :
    Except String (List StepLine) × SFState :=
  match step1 env st with
  | .error e => (.error e, st)
  | .ok (steps1, st1) =>
    match env.recordCreate with
    | .error e => (.error e, st1)
    | .ok id =>
      (.ok (steps1 ++ [.recordCreated id,
                       triggerStepLine env (config.objectName ++ "IntegrationTrigger"),
                       classStepLine env]),
       { st1 with records := st1.records ++ [integrationRecord id config] })

/-- The success response text of `createIntegration`, exactly as formatted
by the source. -/
def createSummaryText (config : IntegrationConfig) (stepLines : List String) : String :=
  "🚀 Integration \"" ++
    (config.name ++ ("\" created successfully!\n\n" ++
      (String.intercalate "\n" stepLines ++
        ("\n\n📋 Summary:\n- Type: " ++
          (integrationTypeStr config.type ++
            ("\n- Object: " ++
              (config.objectName ++
                ("\n- Events: " ++
                  (String.intercalate ", " (config.triggerEvents.map triggerEventStr) ++
                    ("\n- Status: " ++
                      ((if config.active then "Active" else "Inactive") ++
                        ("\n\n💡 Your integration will trigger on " ++
                          (String.intercalate "/" (config.triggerEvents.map triggerEventStr) ++
                            (" events for " ++ (config.objectName ++ " records.")))))))))))))))

/-- `createIntegration`: runs the four steps and formats the summary. -/
def createIntegration (env : Env) (st : SFState) (config : IntegrationConfig) :
    Except String String × SFState :=
  match createRun env st config with
  | (.ok steps, st2) => (.ok (createSummaryText config (steps.map renderStep)), st2)
  | (.error e, st2) => (.error e, st2)

/-- The query issued by `listIntegrations` and `deleteIntegration`: fails
when the backing schema is absent or the oracle reports a query failure. -/
def queryRecords (env : Env) (st : SFState) : Except String (List IntegrationRecord) :=
  if st.schemaExists then
    match env.queryErr with
    | some e => .error e
    | none => .ok st.records
  else .error "sObject type Integration_Config__c is not supported"

/-- One formatted line of the `list` output. -/
def listRecordLine (r : IntegrationRecord) : String :=
  "📱 " ++ r.Name ++ "\n   Type: " ++ r.Type__c ++ " | Object: " ++ r.Object_Name__c ++
    "\n   Events: " ++ r.Trigger_Events__c ++ " | Status: " ++
    (if r.Active__c then "🟢 Active" else "🔴 Inactive")

/-- `listIntegrations`: renders all records, an empty-state message for an
empty store, and (catching every query failure) a fallback empty-state
message instead of an error. -/
def listIntegrations (env : Env) (st : SFState) : Except String String × SFState :=
  match queryRecords env st with
  | .error _ =>
    (.ok "No integrations found. The Integration_Config__c object may not exist yet. Create your first integration to get started!", st)
  | .ok records =>
    if records.length = 0 then
      (.ok "No integrations found. Use \x27create\x27 operation to set up your first integration!", st)
    else
      (.ok ("🔗 Your Integrations (" ++ toString records.length ++ " total):\n\n" ++
        String.intercalate "\n\n" (records.map listRecordLine)), st)

/-- The runtime-partial config consumed by `updateIntegration`: each field
may be absent (`undefined` on the TS side). -/
structure UpdateConfig where
  endpoint : Option String
  authConfig : Option AuthConfig
  messageTemplate : Option String
  condition : Option String
  active : Option Bool

/-- The field assignments sent with the remote update (`updateData`):
`endpoint` and `messageTemplate` are included only when truthy,
`authConfig` when present, `condition` and `active` when not `undefined`. -/
structure UpdateData where
  Endpoint__c : Option String
  Auth_Config__c : Option String
  Message_Template__c : Option String
  Condition__c : Option String
  Active__c : Option Bool

def mkUpdateData (config : UpdateConfig) : UpdateData :=
  { Endpoint__c := if strTruthy config.endpoint then config.endpoint else none
  , Auth_Config__c := config.authConfig.map jsonOfAuth
  , Message_Template__c := if strTruthy config.messageTemplate then config.messageTemplate else none
  , Condition__c := config.condition
  , Active__c := config.active }

/-- Effect of a remote field update keyed by `Name`: every record whose
name matches receives the present fields; all other fields and records
are untouched. -/
def applyUpdateData (integrationName : String) (d : UpdateData)
    (records : List IntegrationRecord) : List IntegrationRecord :=
  records.map fun r =>
    if r.Name = integrationName then
      { r with Endpoint__c := d.Endpoint__c.getD r.Endpoint__c
             , Auth_Config__c := d.Auth_Config__c.getD r.Auth_Config__c
             , Message_Template__c := d.Message_Template__c.getD r.Message_Template__c
             , Condition__c := d.Condition__c.getD r.Condition__c
             , Active__c := d.Active__c.getD r.Active__c }
    else r

/-- `updateIntegration`: issues one remote field update keyed by name (no
existence check) and reports success. -/
def updateIntegration (env : Env) (st : SFState) (integrationName : String)
    (config : UpdateConfig) : Except String String × SFState :=
  match env.updateErr with
  | some e => (.error e, st)
  | none =>
    (.ok ("✅ Integration \"" ++ integrationName ++ "\" updated successfully!"),
     { st with records := applyUpdateData integrationName (mkUpdateData config) st.records })

/-- `activateIntegration`: sets only `Active__c`, keyed by name, no
existence check. -/
def activateIntegration (env : Env) (st : SFState) (integrationName : String)
    (active : Bool) : Except String String × SFState :=
  match env.updateErr with
  | some e => (.error e, st)
  | none =>
    (.ok ((if active then "🟢" else "🔴") ++ " Integration \"" ++ integrationName ++
        "\" " ++ (if active then "activated" else "deactivated") ++ " successfully!"),
     { st with records := st.records.map fun r =>
         if r.Name = integrationName then { r with Active__c := active } else r })

/-- `deleteIntegration`: queries the record id by name, fails with a
not-found error when absent, otherwise deletes the found record. -/
def deleteIntegration (env : Env) (st : SFState) (integrationName : String) :
    Except String String × SFState :=
  match queryRecords env st with
  | .error e => (.error e, st)
  | .ok records =>
    match records.filter (fun r => r.Name == integrationName) with
    | [] => (.error ("Integration \"" ++ integrationName ++ "\" not found"), st)
    | r0 :: _ =>
      match env.deleteErr with
      | some e => (.error e, st)
      | none =>
        (.ok ("🗑️ Integration \"" ++ integrationName ++ "\" deleted successfully!"),
         { st with records := st.records.filter (fun r => !(r.Id == r0.Id)) })

/-- The dispatch argument of `handleManageIntegrations` (the TS handler
asserts `config!`/`integrationName!` per operation, so each arm carries
exactly the data it reads). -/
inductive Operation where
  | create (config : IntegrationConfig)
  | list
  | update (integrationName : String) (config : UpdateConfig)
  | delete (integrationName : String)
  | activate (integrationName : String)
  | deactivate (integrationName : String)

/-- `handleManageIntegrations`: dispatches and converts every propagated
error into the textual error response. -/
def handleManageIntegrations (env : Env) (st : SFState) (op : Operation) :
    String × SFState :=
  let r :=
    match op with
    | .create config => createIntegration env st config
    | .list => listIntegrations env st
    | .update n config => updateIntegration env st n config
    | .delete n => deleteIntegration env st n
    | .activate n => activateIntegration env st n true
    | .deactivate n => activateIntegration env st n false
  match r with
  | (.ok text, st2) => (text, st2)
  | (.error e, st2) => ("Error managing integration: " ++ e, st2)

/-! ## Connection establishment (`src/utils/connection.ts`) -/

/-- The environment variables read by `createUserPasswordConnection`. -/
structure ConnEnvVars where
  SALESFORCE_USERNAME : Option String
  SALESFORCE_PASSWORD : Option String
  SALESFORCE_TOKEN : Option String
  SALESFORCE_INSTANCE_URL : Option String

/-- The observable parameters of the connection produced by the
password-grant path: the login URL and the `login(username, password +
token)` call arguments. -/
structure ConnParams where
  loginUrl : String
  username : String
  loginSecret : String
deriving DecidableEq

/-- `createUserPasswordConnection`: defaults the login URL, requires the
three credentials, concatenates password and security token. -/
def createUserPasswordConnection (env : ConnEnvVars) : Except String ConnParams :=
  let username := env.SALESFORCE_USERNAME
  let password := env.SALESFORCE_PASSWORD
  let token := env.SALESFORCE_TOKEN
  let instanceUrl := jsOr env.SALESFORCE_INSTANCE_URL "https://login.salesforce.com"
  if !(strTruthy username) || !(strTruthy password) || !(strTruthy token) then
    .error "Missing required Salesforce credentials: SALESFORCE_USERNAME, SALESFORCE_PASSWORD, SALESFORCE_TOKEN"
  else
    .ok { loginUrl := instanceUrl
        , username := username.getD ""
        , loginSecret := password.getD "" ++ token.getD "" }

/-! ## Quick setup (`src/tools/quickSetupIntegration.ts`) -/

inductive QuickSetupType where
  | whatsapp_lead | slack_opportunity | email_case | webhook_custom
deriving DecidableEq

def quickSetupTypeStr : QuickSetupType → String
  | .whatsapp_lead => "whatsapp_lead"
  | .slack_opportunity => "slack_opportunity"
  | .email_case => "email_case"
  | .webhook_custom => "webhook_custom"

/-- The `config` member of `QuickSetupArgs`. -/
structure QuickSetupConfig where
  whatsappApiToken : Option String
  phoneNumber : Option String
  slackWebhookUrl : Option String
  slackChannel : Option String
  emailEndpoint : Option String
  emailApiKey : Option String
  webhookUrl : Option String
  webhookHeaders : Option (List (String × String))
  messageTemplate : String
  condition : Option String

structure QuickSetupArgs where
  type : QuickSetupType
  objectName : String
  config : QuickSetupConfig

/-- `createQuickSetupConfig`: maps a preset onto a full
`IntegrationConfig`; `now` stands for `Date.now()`. -/
def createQuickSetupConfig (args : QuickSetupArgs) (now : Nat) : IntegrationConfig :=
  let baseName := quickSetupTypeStr args.type ++ "_" ++ args.objectName ++ "_" ++ toString now
  match args.type with
  | .whatsapp_lead =>
    { name := baseName
    , type := .whatsapp
    , endpoint := "https://graph.facebook.com/v17.0/YOUR_PHONE_NUMBER_ID/messages"
    , authType := .bearer
    , authConfig := some [("token", args.config.whatsappApiToken),
                          ("phoneNumber", args.config.phoneNumber)]
    , objectName := args.objectName
    , triggerEvents := [.insert]
    , messageTemplate := args.config.messageTemplate
    , condition := args.config.condition
    , active := true }
  | .slack_opportunity =>
    { name := baseName
    , type := .slack
    , endpoint := jsOr args.config.slackWebhookUrl ""
    , authType := .none
    , authConfig := some [("channel", some (jsOr args.config.slackChannel "#sales"))]
    , objectName := args.objectName
    , triggerEvents := [.insert, .update]
    , messageTemplate := args.config.messageTemplate
    , condition := args.config.condition
    , active := true }
  | .email_case =>
    { name := baseName
    , type := .email
    , endpoint := jsOr args.config.emailEndpoint "https://api.sendgrid.com/v3/mail/send"
    , authType := .api_key
    , authConfig := some [("apiKey", args.config.emailApiKey)]
    , objectName := args.objectName
    , triggerEvents := [.insert]
    , messageTemplate := args.config.messageTemplate
    , condition := args.config.condition
    , active := true }
  | .webhook_custom =>
    { name := baseName
    , type := .webhook
    , endpoint := jsOr args.config.webhookUrl ""
    , authType := .none
    , authConfig := some ((args.config.webhookHeaders.getD []).map
        (fun p => (p.1, some p.2)))
    , objectName := args.objectName
    , triggerEvents := [.insert]
    , messageTemplate := args.config.messageTemplate
    , condition := args.config.condition
    , active := true }

/-! ## Shared concrete inputs for witnesses -/

/-- A fully successful remote environment. -/
def envOk : Env :=
  { schemaCreate := .ok ()
  , recordCreate := .ok "a01xx0000001"
  , triggerCreate := .ok ()
  , triggerUpdate := .ok ()
  , classCreate := .ok ()
  , queryErr := none
  , updateErr := none
  , deleteErr := none }

/-- Initial remote state: schema absent, no records. -/
def st0 : SFState := { schemaExists := false, records := [] }

/-- A valid create input. -/
def cfg0 : IntegrationConfig :=
  { name := "leadAlert"
  , type := .slack
  , endpoint := "https://hooks.slack.example/abc"
  , authType := .none
  , authConfig := none
  , objectName := "Lead"
  , triggerEvents := [.insert]
  , messageTemplate := "New lead"
  , condition := none
  , active := true }

/-- A stored record used by witnesses. -/
def rec0 : IntegrationRecord :=
  { Id := "a01xx0000001"
  , Name := "leadAlert"
  , Type__c := "slack"
  , Endpoint__c := "https://hooks.slack.example/abc"
  , Auth_Type__c := "none"
  , Auth_Config__c := "\x7b\x7d"
  , Object_Name__c := "Lead"
  , Trigger_Events__c := "insert"
  , Message_Template__c := "New lead"
  , Condition__c := ""
  , Active__c := true }

/-- A state holding exactly `rec0`. -/
def st1 : SFState := { schemaExists := true, records := [rec0] }

/-! ## Helper lemmas -/

lemma stepTag_triggerStepLine (env : Env) (n : String) :
    stepTag (triggerStepLine env n) = Step.trigger := by
  unfold triggerStepLine
  split
  · rfl
  · split <;> rfl

lemma stepTag_classStepLine (env : Env) :
    stepTag (classStepLine env) = Step.apexClass := by
  unfold classStepLine
  split
  · rfl
  · split <;> rfl

/-- The create success summary never carries the error-response prefix. -/
lemma isErrorResponse_createSummaryText (config : IntegrationConfig) (lines : List String) :
    isErrorResponse (createSummaryText config lines) = false := by
  unfold isErrorResponse strStartsWith createSummaryText
  apply decide_eq_false
  intro hpf
  obtain ⟨t, ht⟩ := hpf
  rw [String.data_append] at ht
  rw [show ("Error managing integration:").data
        = 'E' :: ("rror managing integration:").data from rfl] at ht
  rw [show ("🚀 Integration \"").data = '🚀' :: (" Integration \"").data from rfl] at ht
  rw [List.cons_append, List.cons_append] at ht
  injection ht with h1 h2
  exact absurd h1 (by decide)

/-- The three fields `update` with only `active` set must not touch. -/
def frameProj (r : IntegrationRecord) : String × String × String :=
  (r.Endpoint__c, r.Message_Template__c, r.Auth_Config__c)

/-! ## Claim theorems -/

/-- C6: quick setup fixes `triggerEvents` to `[insert, update]` exactly for
the `slack_opportunity` preset and to `[insert]` for the other three. -/
theorem quickSetup_triggerEvents (args : QuickSetupArgs) (now : Nat) :
    (createQuickSetupConfig args now).triggerEvents =
      if args.type = QuickSetupType.slack_opportunity
      then [TriggerEvent.insert, TriggerEvent.update]
      else [TriggerEvent.insert] := by
  rcases args with ⟨ty, obj, cfg⟩
  cases ty <;> simp [createQuickSetupConfig]

/-- C10: every configuration produced by quick setup has `active = true`,
whatever the caller passed. -/
theorem quickSetup_always_active (args : QuickSetupArgs) (now : Nat) :
    (createQuickSetupConfig args now).active = true := by
  rcases args with ⟨ty, obj, cfg⟩
  cases ty <;> rfl

/-- C5: with zero stored configurations, `list` returns one of the two
empty-state messages — also when the schema is unprovisioned or the query
fails — and never an error response; the state is untouched. -/
theorem list_empty_state (env : Env) (st : SFState) (h : st.records = []) :
    ((handleManageIntegrations env st .list).1 =
        "No integrations found. Use \x27create\x27 operation to set up your first integration!" ∨
     (handleManageIntegrations env st .list).1 =
        "No integrations found. The Integration_Config__c object may not exist yet. Create your first integration to get started!") ∧
    isErrorResponse (handleManageIntegrations env st .list).1 = false ∧
    (handleManageIntegrations env st .list).2 = st := by
  cases hs : st.schemaExists
  · refine ⟨Or.inr ?_, ?_, ?_⟩ <;>
      simp [handleManageIntegrations, listIntegrations, queryRecords, hs]
    decide
  · cases hq : env.queryErr
    · refine ⟨Or.inl ?_, ?_, ?_⟩ <;>
        simp [handleManageIntegrations, listIntegrations, queryRecords, hs, hq, h]
      decide
    · refine ⟨Or.inr ?_, ?_, ?_⟩ <;>
        simp [handleManageIntegrations, listIntegrations, queryRecords, hs, hq]
      decide

theorem list_empty_state_witness :
    (st0.records = []) ∧
    (((handleManageIntegrations envOk st0 .list).1 =
        "No integrations found. Use \x27create\x27 operation to set up your first integration!" ∨
      (handleManageIntegrations envOk st0 .list).1 =
        "No integrations found. The Integration_Config__c object may not exist yet. Create your first integration to get started!") ∧
     isErrorResponse (handleManageIntegrations envOk st0 .list).1 = false ∧
     (handleManageIntegrations envOk st0 .list).2 = st0) :=
  ⟨rfl, list_empty_state envOk st0 rfl⟩

/-- C4: deleting an unknown name fails with the not-found error (wrapped
into the textual error response) and leaves the store unchanged. -/
theorem delete_unknown_not_found (env : Env) (st : SFState) (integrationName : String)
    (hs : st.schemaExists = true) (hq : env.queryErr = none)
    (habs : st.records.filter (fun r => r.Name == integrationName) = []) :
    (handleManageIntegrations env st (.delete integrationName)).1 =
      "Error managing integration: " ++
        ("Integration \"" ++ integrationName ++ "\" not found") ∧
    (handleManageIntegrations env st (.delete integrationName)).2 = st := by
  constructor <;>
    simp [handleManageIntegrations, deleteIntegration, queryRecords, hs, hq, habs]

theorem delete_unknown_not_found_witness :
    (handleManageIntegrations envOk st1 (.delete "ghost")).1 =
      "Error managing integration: " ++
        ("Integration \"" ++ "ghost" ++ "\" not found") ∧
    (handleManageIntegrations envOk st1 (.delete "ghost")).2 = st1 :=
  delete_unknown_not_found envOk st1 "ghost" rfl rfl (by decide)

/-- C3: an update whose partial config sets only `active` leaves
`endpoint`, `messageTemplate` and `authConfig` of every stored record
(in particular the target) unchanged. -/
theorem update_only_active_frame (env : Env) (st : SFState) (integrationName : String)
    (config : UpdateConfig)
    (he : config.endpoint = none) (ha : config.authConfig = none)
    (hm : config.messageTemplate = none) (hc : config.condition = none) :
    ((updateIntegration env st integrationName config).2).records.map frameProj =
      st.records.map frameProj := by
  cases hu : env.updateErr
  · simp only [updateIntegration, hu]
    rw [applyUpdateData, List.map_map]
    apply List.map_congr_left
    intro r _
    by_cases hn : r.Name = integrationName <;>
      simp [mkUpdateData, he, ha, hm, hc, strTruthy, hn, frameProj]
  · simp [updateIntegration, hu]

theorem update_only_active_frame_witness :
    ((updateIntegration envOk st1 "leadAlert"
        ⟨none, none, none, none, some false⟩).2).records.map frameProj =
      st1.records.map frameProj :=
  update_only_active_frame envOk st1 "leadAlert" ⟨none, none, none, none, some false⟩
    rfl rfl rfl rfl

/-- C9: falsy `endpoint`/`messageTemplate` (empty string) and absent
`authConfig` are silently dropped from the update, while `condition = ""`
and `active = false` are applied to the record keyed by name. -/
theorem update_truthiness_asymmetry (env : Env) (st : SFState) (integrationName : String)
    (config : UpdateConfig)
    (hu : env.updateErr = none)
    (he : config.endpoint = some "") (ha : config.authConfig = none)
    (hm : config.messageTemplate = some "") (hc : config.condition = some "")
    (hact : config.active = some false) :
    (updateIntegration env st integrationName config).1 =
      .ok ("✅ Integration \"" ++ integrationName ++ "\" updated successfully!") ∧
    ((updateIntegration env st integrationName config).2).records =
      st.records.map (fun r =>
        if r.Name = integrationName
        then { r with Condition__c := "", Active__c := false }
        else r) := by
  constructor
  · simp [updateIntegration, hu]
  · simp only [updateIntegration, hu]
    rw [applyUpdateData]
    apply List.map_congr_left
    intro r _
    by_cases hn : r.Name = integrationName <;>
      simp [mkUpdateData, he, ha, hm, hc, hact, strTruthy, hn]

theorem update_truthiness_asymmetry_witness :
    (updateIntegration envOk st1 "leadAlert"
        ⟨some "", none, some "", some "", some false⟩).1 =
      .ok ("✅ Integration \"" ++ "leadAlert" ++ "\" updated successfully!") ∧
    ((updateIntegration envOk st1 "leadAlert"
        ⟨some "", none, some "", some "", some false⟩).2).records =
      st1.records.map (fun r =>
        if r.Name = "leadAlert"
        then { r with Condition__c := "", Active__c := false }
        else r) :=
  update_truthiness_asymmetry envOk st1 "leadAlert"
    ⟨some "", none, some "", some "", some false⟩ rfl rfl rfl rfl rfl rfl

/-- C8: update, activate and deactivate perform no existence check: on an
unknown name, as long as the remote update call does not fail, each
returns its success message (never a not-found error). -/
theorem update_activate_no_existence_check (env : Env) (st : SFState)
    (integrationName : String) (config : UpdateConfig)
    (hu : env.updateErr = none)
    (habs : ∀ r ∈ st.records, r.Name ≠ integrationName) :
    (handleManageIntegrations env st (.update integrationName config)).1 =
      "✅ Integration \"" ++ integrationName ++ "\" updated successfully!" ∧
    (handleManageIntegrations env st (.activate integrationName)).1 =
      "🟢" ++ " Integration \"" ++ integrationName ++ "\" " ++ "activated" ++ " successfully!" ∧
    (handleManageIntegrations env st (.deactivate integrationName)).1 =
      "🔴" ++ " Integration \"" ++ integrationName ++ "\" " ++ "deactivated" ++ " successfully!" := by
  refine ⟨?_, ?_, ?_⟩ <;>
    simp [handleManageIntegrations, updateIntegration, activateIntegration, hu]

theorem update_activate_no_existence_check_witness :
    ((∀ r ∈ st1.records, r.Name ≠ "ghost") ∧
     (handleManageIntegrations envOk st1 (.update "ghost" ⟨none, none, none, none, some true⟩)).1 =
       "✅ Integration \"" ++ "ghost" ++ "\" updated successfully!" ∧
     (handleManageIntegrations envOk st1 (.activate "ghost")).1 =
       "🟢" ++ " Integration \"" ++ "ghost" ++ "\" " ++ "activated" ++ " successfully!" ∧
     (handleManageIntegrations envOk st1 (.deactivate "ghost")).1 =
       "🔴" ++ " Integration \"" ++ "ghost" ++ "\" " ++ "deactivated" ++ " successfully!") :=
  ⟨by decide,
   update_activate_no_existence_check envOk st1 "ghost" ⟨none, none, none, none, some true⟩
     rfl (by decide)⟩

/-- C7 as stated: all four of username, password, security token and login
URL are required — a missing one makes the password-grant connection fail. -/
def c7Claim : Prop :=
  ∀ env : ConnEnvVars,
    (env.SALESFORCE_USERNAME = none ∨ env.SALESFORCE_PASSWORD = none ∨
     env.SALESFORCE_TOKEN = none ∨ env.SALESFORCE_INSTANCE_URL = none) →
    ∃ e, createUserPasswordConnection env = .error e

/-- C7 counterexample: with the three credentials set but the login URL
absent, the connection attempt does not fail — the login URL is defaulted,
not required. -/
theorem connection_loginUrl_not_required : ¬ c7Claim := by
  intro h
  rcases h ⟨some "user", some "pw", some "tok", none⟩ (by simp) with ⟨e, he⟩
  rw [show createUserPasswordConnection ⟨some "user", some "pw", some "tok", none⟩ =
        .ok ⟨"https://login.salesforce.com", "user", "pw" ++ "tok"⟩ from rfl] at he
  exact Except.noConfusion he

/-- C7 amended: only the three credential variables are required (the
login URL defaults); whenever one of them is missing or empty, the
connection fails with the configuration error naming the credential
variables. -/
theorem connection_missing_credentials (env : ConnEnvVars)
    (h : strTruthy env.SALESFORCE_USERNAME = false ∨
         strTruthy env.SALESFORCE_PASSWORD = false ∨
         strTruthy env.SALESFORCE_TOKEN = false) :
    createUserPasswordConnection env =
      .error "Missing required Salesforce credentials: SALESFORCE_USERNAME, SALESFORCE_PASSWORD, SALESFORCE_TOKEN" := by
  unfold createUserPasswordConnection
  rcases h with h | h | h <;> simp [h]

theorem connection_missing_credentials_witness :
    createUserPasswordConnection ⟨some "user", some "pw", none, some "https://org.my.salesforce.example"⟩ =
      .error "Missing required Salesforce credentials: SALESFORCE_USERNAME, SALESFORCE_PASSWORD, SALESFORCE_TOKEN" :=
  connection_missing_credentials
    ⟨some "user", some "pw", none, some "https://org.my.salesforce.example"⟩
    (Or.inr (Or.inr rfl))

/-- C1: whenever create returns a summary, its step lines are exactly the
attempted steps, tagged in the fixed order schema (only when the schema
had to be provisioned), record, trigger, class, and the summary text is
the fixed header, the step lines in that order, and the fixed footer. -/
theorem create_summary_steps (env : Env) (st : SFState) (config : IntegrationConfig)
    (steps : List StepLine) (h : (createRun env st config).1 = .ok steps) :
    steps.map stepTag =
      (if st.schemaExists then [] else [Step.schema]) ++
        [Step.record, Step.trigger, Step.apexClass] ∧
    (createIntegration env st config).1 =
      .ok (createSummaryText config (steps.map renderStep)) := by
  cases h1 : step1 env st with
  | error e => simp [createRun, h1] at h
  | ok p =>
    obtain ⟨s1, stm⟩ := p
    cases h2 : env.recordCreate with
    | error e => simp [createRun, h1, h2] at h
    | ok id =>
      simp only [createRun, h1, h2] at h
      have hsteps := Except.ok.inj h
      subst hsteps
      have hs1 : s1.map stepTag = if st.schemaExists then [] else [Step.schema] := by
        by_cases hex : st.schemaExists
        · simp [step1, hex] at h1
          simp [hex, ← h1.1]
        · simp only [step1, hex, if_neg, Bool.false_eq_true, ite_false] at h1
          cases hsc : env.schemaCreate with
          | ok u => simp [hsc] at h1; simp [hex, ← h1.1, stepTag]
          | error e => simp [hsc] at h1
      constructor
      · simp [hs1, stepTag]
        exact ⟨stepTag_triggerStepLine env _, stepTag_classStepLine env⟩
      · simp [createIntegration, createRun, h1, h2]

theorem create_summary_steps_witness :
    ([StepLine.schemaCreated, StepLine.recordCreated "a01xx0000001",
      StepLine.triggerCreated "LeadIntegrationTrigger", StepLine.classCreated].map stepTag =
      (if st0.schemaExists then [] else [Step.schema]) ++
        [Step.record, Step.trigger, Step.apexClass]) ∧
    (createIntegration envOk st0 cfg0).1 =
      .ok (createSummaryText cfg0
        ([StepLine.schemaCreated, StepLine.recordCreated "a01xx0000001",
          StepLine.triggerCreated "LeadIntegrationTrigger", StepLine.classCreated].map renderStep)) :=
  create_summary_steps envOk st0 cfg0
    [StepLine.schemaCreated, StepLine.recordCreated "a01xx0000001",
     StepLine.triggerCreated "LeadIntegrationTrigger", StepLine.classCreated]
    rfl

/-- The schema phase of create completes (schema already present, or its
provisioning call succeeds). -/
def schemaPhaseOk (env : Env) (st : SFState) : Prop :=
  st.schemaExists = true ∨ env.schemaCreate = .ok ()

/-- Some step of the create sequence fails after at least one earlier step
succeeded. -/
def stepFailureAfterSuccess (env : Env) (st : SFState) : Prop :=
  (st.schemaExists = false ∧ env.schemaCreate = .ok () ∧
    ∃ e, env.recordCreate = .error e) ∨
  (schemaPhaseOk env st ∧ (∃ id, env.recordCreate = .ok id) ∧
    ∃ e₁ e₂, env.triggerCreate = .error e₁ ∧ env.triggerUpdate = .error e₂) ∨
  (schemaPhaseOk env st ∧ (∃ id, env.recordCreate = .ok id) ∧
    ∃ e, env.classCreate = .error e ∧ containsSubstr e "DUPLICATE_VALUE" = false)

/-- C2 as stated: every step failure after earlier successes is downgraded
to a warning line inside the success summary, never an error response. -/
def c2Claim : Prop :=
  ∀ (env : Env) (st : SFState) (config : IntegrationConfig),
    stepFailureAfterSuccess env st →
    (∃ steps : List StepLine,
      (handleManageIntegrations env st (.create config)).1 =
        createSummaryText config (steps.map renderStep) ∧
      ∃ l ∈ steps, isWarningStep l = true) ∧
    isErrorResponse (handleManageIntegrations env st (.create config)).1 = false

/-- The environment of the C2 counterexample: schema provisioning succeeds
and then the record insert fails. -/
def envC2 : Env :=
  { schemaCreate := .ok ()
  , recordCreate := .error "record insert failed"
  , triggerCreate := .ok ()
  , triggerUpdate := .ok ()
  , classCreate := .ok ()
  , queryErr := none
  , updateErr := none
  , deleteErr := none }

/-- C2 counterexample: when the record insert fails after the schema step
succeeded, create surfaces an error response — the failure is not
downgraded to a warning in a success summary. -/
theorem create_partial_failure_counterexample : ¬ c2Claim := by
  intro h
  have h2 := (h envC2 st0 cfg0 (Or.inl ⟨rfl, rfl, "record insert failed", rfl⟩)).2
  rw [show (handleManageIntegrations envC2 st0 (.create cfg0)).1 =
        "Error managing integration: record insert failed" from rfl] at h2
  exact absurd h2 (by decide)

/-- C2 amended: a failure of the trigger step (both create and update
attempts) or of the class step (without `DUPLICATE_VALUE`), after the
record step succeeded, is downgraded to a warning line inside the success
summary and is not surfaced as an error response; a schema or record step
failure instead propagates as an error response. -/
theorem create_partial_failure_warning (env : Env) (st : SFState)
    (config : IntegrationConfig)
    (hschema : schemaPhaseOk env st)
    (hrec : ∃ id, env.recordCreate = .ok id)
    (hfail : (∃ e₁ e₂, env.triggerCreate = .error e₁ ∧ env.triggerUpdate = .error e₂) ∨
             (∃ e, env.classCreate = .error e ∧ containsSubstr e "DUPLICATE_VALUE" = false)) :
    ∃ steps : List StepLine,
      (handleManageIntegrations env st (.create config)).1 =
        createSummaryText config (steps.map renderStep) ∧
      (∃ l ∈ steps, isWarningStep l = true) ∧
      isErrorResponse (handleManageIntegrations env st (.create config)).1 = false := by
  obtain ⟨id, hid⟩ := hrec
  have hstep1 : ∃ s1 stm, step1 env st = .ok (s1, stm) := by
    by_cases hex : st.schemaExists
    · exact ⟨[], st, by simp [step1, hex]⟩
    · rcases hschema with hs | hs
      · exact absurd hs (by simp [hex])
      · exact ⟨[.schemaCreated], { st with schemaExists := true },
          by simp [step1, hex, hs]⟩
  obtain ⟨s1, stm, h1⟩ := hstep1
  refine ⟨s1 ++ [.recordCreated id,
                 triggerStepLine env (config.objectName ++ "IntegrationTrigger"),
                 classStepLine env], ?_, ?_, ?_⟩
  · simp [handleManageIntegrations, createIntegration, createRun, h1, hid]
  · rcases hfail with ⟨e₁, e₂, ht1, ht2⟩ | ⟨e, hc1, hc2⟩
    · exact ⟨triggerStepLine env (config.objectName ++ "IntegrationTrigger"),
        by simp, by simp [triggerStepLine, ht1, ht2, isWarningStep]⟩
    · exact ⟨classStepLine env,
        by simp, by simp [classStepLine, hc1, hc2, isWarningStep]⟩
  · have hres : (handleManageIntegrations env st (.create config)).1 =
        createSummaryText config
          ((s1 ++ [.recordCreated id,
                   triggerStepLine env (config.objectName ++ "IntegrationTrigger"),
                   classStepLine env]).map renderStep) := by
      simp [handleManageIntegrations, createIntegration, createRun, h1, hid]
    rw [hres]
    exact isErrorResponse_createSummaryText config _

/-- The environment of the C2 amendment witness: record insert succeeds,
both trigger deployment attempts fail. -/
def envC2w : Env :=
  { schemaCreate := .ok ()
  , recordCreate := .ok "a01xx0000002"
  , triggerCreate := .error "metadata create rejected"
  , triggerUpdate := .error "metadata update rejected"
  , classCreate := .ok ()
  , queryErr := none
  , updateErr := none
  , deleteErr := none }

theorem create_partial_failure_warning_witness :
    ∃ steps : List StepLine,
      (handleManageIntegrations envC2w st0 (.create cfg0)).1 =
        createSummaryText cfg0 (steps.map renderStep) ∧
      (∃ l ∈ steps, isWarningStep l = true) ∧
      isErrorResponse (handleManageIntegrations envC2w st0 (.create cfg0)).1 = false :=
  create_partial_failure_warning envC2w st0 cfg0 (Or.inr rfl) ⟨"a01xx0000002", rfl⟩
    (Or.inl ⟨"metadata create rejected", "metadata update rejected", rfl, rfl⟩)
